import Mathlib

/-!
Verification of the OpenOCD STM32U5/H5/H7 NOR-flash driver
(`src/flash/nor/stm32h5x.c`) against its natural-language specification.

The driver is embedded shallowly:
* the register-access layer (`target_read_u32` / `target_write_u32` /
  `target_write_memory`) is modelled by a `Shim` assigning an outcome to the
  n-th read / write / bulk write of a run, together with a `Trace` recording
  the addresses read and the (address, value) pairs written, in order;
* each C function becomes a Lean function threading the `Trace`;
* 32-bit machine integers are modelled by `Nat` (all values involved are
  below 2^32 and no arithmetic in the modelled paths can overflow, since the
  C code's own `assert`s bound the inputs; the `assert`s themselves are
  modelled as explicit guards returning `none`);
* OpenOCD's `int` status codes are modelled by `Int` with the usual values.
-/

/-! ### OpenOCD status codes (helper/log.h, target/target.h) -/

def ERROR_OK : Int := 0

def ERROR_FAIL : Int := -4

def ERROR_TARGET_NOT_HALTED : Int := -304

def ERROR_TARGET_RESOURCE_NOT_AVAILABLE : Int := -308

def ERROR_TARGET_NOT_EXAMINED : Int := -311

/-! ### Register addresses, from the `#define`s in stm32h5x.c -/

def U5_NSKEYR : Nat := 0x40022000 + 0x008

def U5_NSSR : Nat := 0x40022000 + 0x020

def U5_NSCR : Nat := 0x40022000 + 0x028

def H5_NSKEYR : Nat := 0x40022000 + 0x004

def H5_NSSR : Nat := 0x40022000 + 0x020

def H5_NSCR : Nat := 0x40022000 + 0x028

def H5_NSCCR : Nat := 0x40022000 + 0x030

def H7_KEYR (b : Nat) : Nat := 0x52002000 + (if b = 0 then 0x004 else 0x104)

def H7_SR (b : Nat) : Nat := 0x52002000 + (if b = 0 then 0x010 else 0x110)

def H7_CR (b : Nat) : Nat := 0x52002000 + (if b = 0 then 0x00c else 0x10c)

def H7_CCR (b : Nat) : Nat := 0x52002000 + (if b = 0 then 0x014 else 0x114)

/-! ### The register-access shim and the trace of one driver invocation -/

/-- Outcomes of the environment (the target/transport layer) during one run:
`readVal n` is the value delivered by the n-th 32-bit register read (`none`
models a transport failure), `writeOk n` tells whether the n-th 32-bit
register write succeeds, and `burstOk n` whether the n-th bulk memory write
(`target_write_memory`) succeeds. -/
structure Shim where
  readVal : Nat → Option Nat
  writeOk : Nat → Bool
  burstOk : Nat → Bool

/-- Everything the driver did to the target so far: the register addresses
read, the (address, value) register writes attempted, and the bulk bursts
(address, data bytes) attempted, each in program order. -/
structure Trace where
  reads : List Nat
  writes : List (Nat × Nat)
  bursts : List (Nat × List Nat)
deriving DecidableEq, Repr

def Trace.empty : Trace := ⟨[], [], []⟩

/-- Result of one `target_read_u32`: status, value read (0 on failure; the C
code never consumes the value unless the status is `ERROR_OK`), new trace. -/
structure ReadRes where
  ret : Int
  val : Nat
  tr : Trace

/-- Model of `target_read_u32`: consult the shim for the outcome of the next read. -/
def doRead (s : Shim) (t : Trace) (addr : Nat) : ReadRes :=
  let t1 : Trace := { t with reads := t.reads ++ [addr] }
  match s.readVal t.reads.length with
  | some v => ⟨ERROR_OK, v, t1⟩
  | none => ⟨ERROR_FAIL, 0, t1⟩

/-- Model of `target_write_u32`: record the attempted write, outcome from the shim. -/
def doWrite (s : Shim) (t : Trace) (addr v : Nat) : Int × Trace :=
  let t1 : Trace := { t with writes := t.writes ++ [(addr, v)] }
  if s.writeOk t.writes.length then (ERROR_OK, t1) else (ERROR_FAIL, t1)

/-- Model of `target_write_memory(addr, 32/8, 128/32, data)`: one 16-byte burst. -/
def doBurst (s : Shim) (t : Trace) (addr : Nat) (data : List Nat) : Int × Trace :=
  let t1 : Trace := { t with bursts := t.bursts ++ [(addr, data)] }
  if s.burstOk t.bursts.length then (ERROR_OK, t1) else (ERROR_FAIL, t1)

/-! ### Per-family register geometry

The three C families (`*_U5`, `*_H5`, `*_H7(bankNum)`) share identical
control flow and differ only in register addresses and bit patterns; the
shared flow is defined once over a `FamRegs` record whose three instances
transcribe the constants of the corresponding C functions. -/

structure FamRegs where
  sr : Nat          -- status register read by CheckNoOp / Wait4EOP
  busyMask : Nat    -- CheckNoOp: busy if (val & busyMask) != 0
  ccr : Nat         -- register written by ClearErrorFlags
  clrPat : Nat      -- value written by ClearErrorFlags
  cr : Nat          -- control register (lock bit, start bits)
  key : Nat         -- key register written by Unlock
  lockMask : Nat    -- lock bit tested by Unlock
  startPat : Nat    -- mass-erase start pattern written to cr
  fatalMask : Nat   -- Wait4EOP: fail immediately if (val & fatalMask) != 0
  okMask : Nat      -- Wait4EOP: succeed if (val & okMask) == okPat
  okPat : Nat
  lockPat : Nat     -- value written to cr by Lock

/-- Constants of `Unlock_U5` / `Wait4EOP_U5` / `CheckNoOp_U5` /
`ClearErrorFlags_U5` / `MassErase_U5` / `Lock_U5`. -/
def famU5 : FamRegs :=
  { sr := U5_NSSR, busyMask := 0x00010000
    ccr := U5_NSSR, clrPat := 0x000020fb
    cr := U5_NSCR, key := U5_NSKEYR, lockMask := 0x80000000
    startPat := 0x00018004
    fatalMask := 0x000020fa, okMask := 0x00010001, okPat := 0x00000001
    lockPat := 0x80000000 }

/-- Constants of `Unlock_H5` / `Wait4EOP_H5` / `CheckNoOp_H5` /
`ClearErrorFlags_H5` / `MassErase_H5` / `Lock_H5`. -/
def famH5 : FamRegs :=
  { sr := H5_NSSR, busyMask := 0x0000000b
    ccr := H5_NSCCR, clrPat := 0x00ff0000
    cr := H5_NSCR, key := H5_NSKEYR, lockMask := 0x00000001
    startPat := 0x00008020
    fatalMask := 0x00fe0000, okMask := 0x0001000b, okPat := 0x00010000
    lockPat := 0x00000001 }

/-- Constants of `Unlock_H7` / `Wait4EOP_H7` / `CheckNoOp_H7` /
`ClearErrorFlags_H7` / `MassErase_H7` / `Lock_H7` for physical bank `b`. -/
def famH7 (b : Nat) : FamRegs :=
  { sr := H7_SR b, busyMask := 0x0000000b
    ccr := H7_CCR b, clrPat := 0x00ff0000
    cr := H7_CR b, key := H7_KEYR b, lockMask := 0x00000001
    startPat := 0x00008020
    fatalMask := 0x00ff0000, okMask := 0x0000000b, okPat := 0x00000000
    lockPat := 0x00000001 }

/-! ### The family protocol functions -/

/-- Model of `Lock_*`: unconditionally write the lock pattern to the control register. -/
def lockGen (s : Shim) (f : FamRegs) (t : Trace) : Int × Trace :=
  doWrite s t f.cr f.lockPat

/-- Model of `Unlock_*`: read cr; if the lock bit is clear succeed with no writes;
otherwise write the two key constants in order and re-check. -/
def unlockGen (s : Shim) (f : FamRegs) (t : Trace) : Int × Trace :=
  let r := doRead s t f.cr
  if r.ret = ERROR_OK then
    if r.val &&& f.lockMask = 0 then (ERROR_OK, r.tr)
    else
      let w1 := doWrite s r.tr f.key 0x45670123
      if w1.1 = ERROR_OK then
        let w2 := doWrite s w1.2 f.key 0xcdef89ab
        if w2.1 = ERROR_OK then
          let r2 := doRead s w2.2 f.cr
          if r2.ret = ERROR_OK then
            if r2.val &&& f.lockMask = 0 then (ERROR_OK, r2.tr)
            else (ERROR_FAIL, r2.tr)
          else (r2.ret, r2.tr)
        else (w2.1, w2.2)
      else (w1.1, w1.2)
  else (r.ret, r.tr)

/-- Model of `Wait4EOP_*`: bounded polling loop. Each tick reads sr; a fatal bit
fails immediately, the success pattern succeeds immediately, a failed read
just consumes the tick; exhaustion is `ERROR_FAIL`. -/
def wait4EOPGen (s : Shim) (f : FamRegs) : Nat → Trace → Int × Trace
  | 0, t => (ERROR_FAIL, t)
  | timeout + 1, t =>
    let r := doRead s t f.sr
    if r.ret = ERROR_OK then
      if r.val &&& f.fatalMask ≠ 0 then (ERROR_FAIL, r.tr)
      else if r.val &&& f.okMask = f.okPat then (ERROR_OK, r.tr)
      else wait4EOPGen s f timeout r.tr
    else wait4EOPGen s f timeout r.tr

/-- Model of `CheckNoOp_*`: read sr; busy bits set is a distinct "resource not
available" failure; a failed read propagates. -/
def checkNoOpGen (s : Shim) (f : FamRegs) (t : Trace) : Int × Trace :=
  let r := doRead s t f.sr
  if r.ret = ERROR_OK then
    if r.val &&& f.busyMask = 0 then (ERROR_OK, r.tr)
    else (ERROR_TARGET_RESOURCE_NOT_AVAILABLE, r.tr)
  else (r.ret, r.tr)

/-- Model of `ClearErrorFlags_*`: write the all-error-bits acknowledge pattern. -/
def clearErrorFlagsGen (s : Shim) (f : FamRegs) (t : Trace) : Int × Trace :=
  doWrite s t f.ccr f.clrPat

/-- Shared body of `MassErase_U5`, `MassErase_H5` and one `bankNum` pass of
`MassErase_H7`: guard, unlock, start mass erase, wait (3000 ticks), reset
the start bits (result ignored), lock (result ignored). When the busy
check, the error-flag clear or the unlock fails, the remaining steps —
including the lock — are skipped and the failing status is returned. -/
def massEraseSeq (s : Shim) (f : FamRegs) (t : Trace) : Int × Trace :=
  let c1 := checkNoOpGen s f t
  if c1.1 = ERROR_OK then
    let c2 := clearErrorFlagsGen s f c1.2
    if c2.1 = ERROR_OK then
      let c3 := unlockGen s f c2.2
      if c3.1 = ERROR_OK then
        let c4 := doWrite s c3.2 f.cr f.startPat
        let c6 :=
          if c4.1 = ERROR_OK then
            let c5 := wait4EOPGen s f 3000 c4.2
            let c5b := doWrite s c5.2 f.cr 0x00000000
            (c5.1, c5b.2)
          else (c4.1, c4.2)
        let c7 := lockGen s f c6.2
        (c6.1, c7.2)
      else (c3.1, c3.2)
    else (c2.1, c2.2)
  else (c1.1, c1.2)

def Unlock_U5 (s : Shim) (t : Trace) : Int × Trace := unlockGen s famU5 t

def Unlock_H5 (s : Shim) (t : Trace) : Int × Trace := unlockGen s famH5 t

def Unlock_H7 (s : Shim) (b : Nat) (t : Trace) : Int × Trace := unlockGen s (famH7 b) t

def Wait4EOP_U5 (s : Shim) (timeout : Nat) (t : Trace) : Int × Trace :=
  wait4EOPGen s famU5 timeout t

def Wait4EOP_H5 (s : Shim) (timeout : Nat) (t : Trace) : Int × Trace :=
  wait4EOPGen s famH5 timeout t

def Wait4EOP_H7 (s : Shim) (b : Nat) (timeout : Nat) (t : Trace) : Int × Trace :=
  wait4EOPGen s (famH7 b) timeout t

def CheckNoOp_H5 (s : Shim) (t : Trace) : Int × Trace := checkNoOpGen s famH5 t

def ClearErrorFlags_H5 (s : Shim) (t : Trace) : Int × Trace := clearErrorFlagsGen s famH5 t

def MassErase_U5 (s : Shim) (t : Trace) : Int × Trace := massEraseSeq s famU5 t

def MassErase_H5 (s : Shim) (t : Trace) : Int × Trace := massEraseSeq s famH5 t

/-- One `bankNum` iteration of the loop in `MassErase_H7`. -/
def massErasePass_H7 (s : Shim) (b : Nat) (t : Trace) : Int × Trace :=
  massEraseSeq s (famH7 b) t

/-- The `for (bankNum = 0; bankNum < 2; ...)` loop of `MassErase_H7`;
`ret` is overwritten by every pass, so the carried status of the final
result is the last pass's status. -/
def massEraseLoop_H7 (s : Shim) : Nat → Nat → Int → Trace → Int × Trace
  | 0, _, ret, t => (ret, t)
  | n + 1, b, _, t =>
    let p := massErasePass_H7 s b t
    massEraseLoop_H7 s n (b + 1) p.1 p.2

def MassErase_H7 (s : Shim) (t : Trace) : Int × Trace :=
  massEraseLoop_H7 s 2 0 ERROR_FAIL t

/-! ### H5 sector erase (`Erase_H5`) -/

/-- The control word `cr` computed for one sector inside the loop of
`Erase_H5` (`cr = 0x24; if (sector < nSectorsPerBank) cr |= sector << 6;
else cr |= ((sector - nSectorsPerBank) << 6) | 0x80000000;`).
Note that `Erase_H5` passes `nSectorsPerBank = nSectorsTotal`. -/
def eraseCR_H5 (nSectorsPerBank sector : Nat) : Nat :=
  if sector < nSectorsPerBank then 0x00000024 ||| (sector <<< 6)
  else 0x00000024 ||| ((sector - nSectorsPerBank) <<< 6) ||| 0x80000000

/-- The control word as the specification words it: the within-bank sector
index goes into the sector-select field and the second-bank-select bit is
set exactly when the sector index falls in the upper half of the total
range, i.e. when `sector` is at least `nSectorsTotal / 2` (64 sectors per
physical bank on a 128-sector bank). Written from the spec for comparison
with `eraseCR_H5`. -/
def eraseCRSpec_H5 (nSectorsTotal sector : Nat) : Nat :=
  if sector < nSectorsTotal / 2 then 0x00000024 ||| (sector <<< 6)
  else 0x00000024 ||| ((sector - nSectorsTotal / 2) <<< 6) ||| 0x80000000

/-- The `for (sector = first; sector <= last; sector++)` loop of `Erase_H5`.
The loop has no break: a failing control-word write or wait just leaves its
status in `ret` and the next sector is still processed, so a later sector's
success overwrites an earlier failure. Fuel is `last + 1 - first`. -/
def eraseGo (s : Shim) (nspb last : Nat) : Nat → Nat → Int → Trace → Int × Trace
  | 0, _, ret, t => (ret, t)
  | fuel + 1, sector, ret, t =>
    if sector ≤ last then
      let cw := doWrite s t H5_NSCR (eraseCR_H5 nspb sector)
      if cw.1 = ERROR_OK then
        let w := wait4EOPGen s famH5 300 cw.2
        let rb := doWrite s w.2 H5_NSCR 0x00000000
        eraseGo s nspb last fuel (sector + 1) w.1 rb.2
      else
        eraseGo s nspb last fuel (sector + 1) cw.1 cw.2
    else (ret, t)

/-- Model of `Erase_H5`. The C `assert`s (`(nSectorsTotal & 1) == 0`,
`first <= last && last <= nSectorsTotal`, `nSectorsPerBank < 0x7f`) abort
the process when violated and are modelled as guards returning `none`.
`nSectorsPerBank` is set to `nSectorsTotal`, exactly as in the source. -/
def Erase_H5 (s : Shim) (bankSize pageSize first last : Nat) (t : Trace) :
    Option (Int × Trace) :=
  let nSectorsTotal := bankSize / pageSize
  if ¬(nSectorsTotal &&& 1 = 0) then none
  else if ¬(first ≤ last ∧ last ≤ nSectorsTotal) then none
  else
    let nSectorsPerBank := nSectorsTotal
    if ¬(nSectorsPerBank < 0x7f) then none
    else some (
      let c1 := checkNoOpGen s famH5 t
      if c1.1 = ERROR_OK then
        let c2 := clearErrorFlagsGen s famH5 c1.2
        if c2.1 = ERROR_OK then
          let c3 := unlockGen s famH5 c2.2
          if c3.1 = ERROR_OK then
            let lp := eraseGo s nSectorsPerBank last (last + 1 - first) first ERROR_OK c3.2
            let c7 := lockGen s famH5 lp.2
            (lp.1, c7.2)
          else (c3.1, c3.2)
        else (c2.1, c2.2)
      else (c1.1, c1.2))

/-! ### H5 programming (`Write_H5`) -/

/-- One chunk assembled in the local `data[128/8]` buffer: the next
`min 16 nBytes` source bytes, padded to the full 16-byte burst width with
the erased-state value `0xff`. -/
def writeChunk_H5 (buffer : List Nat) (nBytes : Nat) : List Nat :=
  buffer.take (min 16 nBytes) ++ List.replicate (16 - min 16 nBytes) 0xff

/-- The `while (0 < nBytes && ret == ERROR_OK)` loop of `Write_H5`: burst
the next chunk (a burst failure breaks immediately), then wait (300 ticks),
advance the address by 16 and drop the consumed bytes. Fuel is the byte
count, which each executed iteration strictly decreases. -/
def writeGo (s : Shim) : Nat → Nat → List Nat → Nat → Int → Trace → Int × Trace
  | 0, _, _, _, ret, t => (ret, t)
  | fuel + 1, addr, buffer, nBytes, ret, t =>
    if 0 < nBytes ∧ ret = ERROR_OK then
      let m := min 16 nBytes
      let b := doBurst s t addr (writeChunk_H5 buffer nBytes)
      if b.1 ≠ ERROR_OK then (b.1, b.2)
      else
        let w := wait4EOPGen s famH5 300 b.2
        writeGo s fuel (addr + 16) (buffer.drop m) (nBytes - m) w.1 w.2
    else (ret, t)

/-- Model of `Write_H5`. The C `assert`s (`(dstOffs + nBytes) <= bank->size`,
`(addr & 127) == 0` with `addr = dstOffs + bank->base`, and
`bank->chip_width == 128/8`) are modelled as guards returning `none`.
The source buffer is modelled as the list of its bytes (the C caller
contract supplies at least `nBytes` readable bytes). -/
def Write_H5 (s : Shim) (bankBase bankSize chipWidth : Nat) (buffer : List Nat)
    (dstOffs nBytes : Nat) (t : Trace) : Option (Int × Trace) :=
  if ¬(dstOffs + nBytes ≤ bankSize) then none
  else
    let addr := dstOffs + bankBase
    if ¬(addr &&& 127 = 0) then none
    else if ¬(chipWidth = 16) then none
    else some (
      let c1 := checkNoOpGen s famH5 t
      if c1.1 = ERROR_OK then
        let c2 := clearErrorFlagsGen s famH5 c1.2
        if c2.1 = ERROR_OK then
          let c3 := unlockGen s famH5 c2.2
          if c3.1 = ERROR_OK then
            let c4 := doWrite s c3.2 H5_NSCR 0x00000002
            let c6 :=
              if c4.1 = ERROR_OK then
                let w := writeGo s nBytes addr buffer nBytes ERROR_OK c4.2
                let rb := doWrite s w.2 H5_NSCR 0x00000000
                (w.1, rb.2)
              else (c4.1, c4.2)
            let c7 := lockGen s famH5 c6.2
            (c6.1, c7.2)
          else (c3.1, c3.2)
        else (c2.1, c2.2)
      else (c1.1, c1.2))

/-! ### Device descriptor table and Probe -/

/-- Values of `enum arm_arch` used used by the table. -/
inductive ArmArch where
  | v7m
  | v8m
deriving DecidableEq, Repr

/-- Family dispatch of a descriptor row, standing for its `MassErase` /
`Erase` / `Write` function pointers (`Write` is non-null exactly on the
rows with `hasWrite = true`). -/
inductive FlashFam where
  | U5
  | H5
  | H7
deriving DecidableEq, Repr

/-- Model of `struct STM32H5xxDef_s`. The field `RevIDList` is the revision table without its
`{0, '\0'}` sentinel; no logic in the file reads it. -/
structure DeviceDef where
  ARMArch : ArmArch
  IDCODE_RomTableAddr : Nat
  DevID : Nat
  DevStr : String
  RevIDList : List (Nat × Char)
  FlashBaseAddr : Nat
  FlashBusWidth : Nat
  FlashPageSize : Nat
  MaxFlashSize : Nat
  FlashSize_Addr : Nat
  Fam : FlashFam
  hasWrite : Bool
deriving DecidableEq, Repr

def RevIDList_U5F_U5G : List (Nat × Char) := [(0x1000, 'A'), (0x1001, 'Z')]

def RevIDList_U59_U5A : List (Nat × Char) := [(0x3001, 'X')]

def RevIDList_U575_U585 : List (Nat × Char) := [(0x2001, 'X'), (0x3001, 'W')]

def RevIDList_U535_U545 : List (Nat × Char) := [(0x1001, 'Z')]

def RevIDList_H5 : List (Nat × Char) := [(0x1000, 'A'), (0x1001, 'Z'), (0x1007, 'X')]

def RevIDList_H7 : List (Nat × Char) :=
  [(0x1001, 'Z'), (0x1003, 'Y'), (0x2001, 'X'), (0x2003, 'V')]

def devU535 : DeviceDef :=
  { ARMArch := ArmArch.v8m, IDCODE_RomTableAddr := 0xe0044000, DevID := 0x455
    DevStr := "STM32U535/545", RevIDList := RevIDList_U535_U545
    FlashBaseAddr := 0x08000000, FlashBusWidth := 128 / 8, FlashPageSize := 8 * 1024
    MaxFlashSize := 512 * 1024, FlashSize_Addr := 0x0bfa07a0
    Fam := FlashFam.U5, hasWrite := false }

def devU5F : DeviceDef :=
  { ARMArch := ArmArch.v8m, IDCODE_RomTableAddr := 0xe0044000, DevID := 0x476
    DevStr := "STM32U5Fx/5Gx", RevIDList := RevIDList_U5F_U5G
    FlashBaseAddr := 0x08000000, FlashBusWidth := 128 / 8, FlashPageSize := 8 * 1024
    MaxFlashSize := 4 * 1024 * 1024, FlashSize_Addr := 0x0bfa07a0
    Fam := FlashFam.U5, hasWrite := false }

def devU59 : DeviceDef :=
  { ARMArch := ArmArch.v8m, IDCODE_RomTableAddr := 0xe0044000, DevID := 0x481
    DevStr := "STM32U59x/5Ax", RevIDList := RevIDList_U59_U5A
    FlashBaseAddr := 0x08000000, FlashBusWidth := 128 / 8, FlashPageSize := 8 * 1024
    MaxFlashSize := 4 * 1024 * 1024, FlashSize_Addr := 0x0bfa07a0
    Fam := FlashFam.U5, hasWrite := false }

def devU575 : DeviceDef :=
  { ARMArch := ArmArch.v8m, IDCODE_RomTableAddr := 0xe0044000, DevID := 0x482
    DevStr := "STM32U575/585", RevIDList := RevIDList_U575_U585
    FlashBaseAddr := 0x08000000, FlashBusWidth := 128 / 8, FlashPageSize := 8 * 1024
    MaxFlashSize := 2 * 1024 * 1024, FlashSize_Addr := 0x0bfa07a0
    Fam := FlashFam.U5, hasWrite := false }

def devH56 : DeviceDef :=
  { ARMArch := ArmArch.v8m, IDCODE_RomTableAddr := 0x44024000, DevID := 0x484
    DevStr := "STM32H562/563/573", RevIDList := RevIDList_H5
    FlashBaseAddr := 0x08000000, FlashBusWidth := 128 / 8, FlashPageSize := 8 * 1024
    MaxFlashSize := 2 * 1024 * 1024, FlashSize_Addr := 0x08fff80c
    Fam := FlashFam.H5, hasWrite := true }

def devH523 : DeviceDef :=
  { ARMArch := ArmArch.v8m, IDCODE_RomTableAddr := 0x44024000, DevID := 0x478
    DevStr := "STM32H523/533", RevIDList := RevIDList_H5
    FlashBaseAddr := 0x08000000, FlashBusWidth := 128 / 8, FlashPageSize := 8 * 1024
    MaxFlashSize := 512 * 1024, FlashSize_Addr := 0x08fff80c
    Fam := FlashFam.H5, hasWrite := true }

def devH503 : DeviceDef :=
  { ARMArch := ArmArch.v8m, IDCODE_RomTableAddr := 0x44024000, DevID := 0x474
    DevStr := "STM32H503", RevIDList := RevIDList_H5
    FlashBaseAddr := 0x08000000, FlashBusWidth := 128 / 8, FlashPageSize := 8 * 1024
    MaxFlashSize := 512 * 1024, FlashSize_Addr := 0x08fff80c
    Fam := FlashFam.H5, hasWrite := true }

def devH742 : DeviceDef :=
  { ARMArch := ArmArch.v7m, IDCODE_RomTableAddr := 0x5c001000, DevID := 0x450
    DevStr := "STM32H742/743/750/753", RevIDList := RevIDList_H7
    FlashBaseAddr := 0x08000000, FlashBusWidth := 256 / 8, FlashPageSize := 128 * 1024
    MaxFlashSize := 2 * 1024 * 1024, FlashSize_Addr := 0x1ff1e880
    Fam := FlashFam.H7, hasWrite := false }

/-- Rows of `DeviceDefs[]`, in table order. -/
def DeviceDefs : List DeviceDef :=
  [devU535, devU5F, devU59, devU575, devH56, devH523, devH503, devH742]

/-- The mutable flash-bank fields `Probe` consults and updates, plus the
`struct STM32H5xxPrv_s` binding (`Def`). -/
structure BankState where
  base : Nat
  size : Nat
  chip_width : Nat
  bus_width : Nat
  write_start_alignment : Nat
  minimal_write_gap : Nat
  num_sectors : Nat
  Def : Option DeviceDef
deriving DecidableEq, Repr

/-- The session-layer facts and register values `Probe` consumes: whether
the target was examined, whether it is an ARM target, its architecture, and
address-indexed register reads (`target_read_u32` on identification
registers, `target_read_u16` on the flash-size register). The values are
per-address because `Probe` reads each register at most once per address
and the device's registers are stable during a probe. -/
structure ProbeEnv where
  examined : Bool
  isArm : Bool
  arch : ArmArch
  readU32At : Nat → Option Nat
  readU16At : Nat → Option Nat

/-- The `LOG_WARNING` sites inside `Probe`'s capacity discovery. -/
inductive ProbeWarn where
  | cmdSizeExceedsMax   -- "Size given at 'flash bank' command ... exceeds maximum flash size!"
  | sizeDiffers         -- "Size given at 'flash bank' command ... differs from device reported size!"
  | invalidSize         -- "MCU indicates invalid flash size ..."
  | readFailed          -- "Unable to read flash size from MCU."
deriving DecidableEq, Repr

/-- The preliminary adjustment of `bank->size` before the capacity register
is consulted: `0` becomes the nominal maximum, a value above the nominal
maximum is clamped to it, anything else is kept. -/
def adjSize (maxFlash size0 : Nat) : Nat :=
  if size0 = 0 then maxFlash
  else if maxFlash < size0 then maxFlash
  else size0

def adjWarns (maxFlash size0 : Nat) : List ProbeWarn :=
  if size0 = 0 then []
  else if maxFlash < size0 then [ProbeWarn.cmdSizeExceedsMax]
  else []

/-- Capacity discovery of `Probe` (stm32h5x.c lines 691-716): preliminary
adjustment, then, when the descriptor defines a capacity register, the raw
16-bit value scaled by 1024 replaces the size exactly when it is nonzero
and at most the nominal maximum; otherwise (invalid value or failed read)
the adjusted size is kept and a warning is emitted. Returns the final
`bank->size` and the warnings. -/
def discoverSize (maxFlash sizeAddr : Nat) (rd16 : Nat → Option Nat) (size0 : Nat) :
    Nat × List ProbeWarn :=
  let size1 := adjSize maxFlash size0
  let w1 := adjWarns maxFlash size0
  if sizeAddr ≠ 0 then
    match rd16 sizeAddr with
    | some val =>
      let flashSize := val * 1024
      if 0 < flashSize ∧ flashSize ≤ maxFlash then
        if 0 < size1 ∧ size1 ≠ flashSize then (flashSize, w1 ++ [ProbeWarn.sizeDiffers])
        else (flashSize, w1)
      else (size1, w1 ++ [ProbeWarn.invalidSize])
    | none => (size1, w1 ++ [ProbeWarn.readFailed])
  else (size1, w1)

/-- The identification scan of `Probe`: first table row whose architecture
matches and whose identification word reads back with low 12 bits equal to
`DevID` wins; a failed read just skips the row. Also returns the addresses
of the identification registers read, in order. -/
def probeScan (env : ProbeEnv) : List DeviceDef → Option DeviceDef × List Nat
  | [] => (none, [])
  | d :: rest =>
    if env.arch = d.ARMArch then
      match env.readU32At d.IDCODE_RomTableAddr with
      | some idcode =>
        if d.DevID = idcode &&& 0x0fff then (some d, [d.IDCODE_RomTableAddr])
        else
          let r := probeScan env rest
          (r.1, d.IDCODE_RomTableAddr :: r.2)
      | none =>
        let r := probeScan env rest
        (r.1, d.IDCODE_RomTableAddr :: r.2)
    else probeScan env rest

/-- Model of `Probe` (stm32h5x.c lines 658-745). Returns the status, the updated
bank state, the identification-register addresses read, and the warnings
of the capacity discovery (empty when it did not run). -/
def Probe (env : ProbeEnv) (st : BankState) : Int × BankState × List Nat × List ProbeWarn :=
  if ¬ env.examined then (ERROR_TARGET_NOT_EXAMINED, st, [], [])
  else if ¬ env.isArm then (ERROR_FAIL, st, [], [])
  else
    let step1 : Int × BankState × List Nat :=
      match st.Def with
      | none =>
        let sc := probeScan env DeviceDefs
        match sc.1 with
        | some d => (ERROR_OK, { st with Def := some d }, sc.2)
        | none => (ERROR_FAIL, st, sc.2)
      | some _ => (ERROR_OK, st, [])
    let ret := step1.1
    let st1 := step1.2.1
    let rds := step1.2.2
    match st1.Def with
    | some d =>
      if ret = ERROR_OK then
        if st1.base = d.FlashBaseAddr then
          let ds := discoverSize d.MaxFlashSize d.FlashSize_Addr env.readU16At st1.size
          (ERROR_OK,
            { st1 with
              size := ds.1
              chip_width := d.FlashBusWidth
              bus_width := d.FlashBusWidth
              write_start_alignment := d.FlashBusWidth
              minimal_write_gap := d.FlashBusWidth
              num_sectors := 0 },
            rds, ds.2)
        else (ERROR_FAIL, st1, rds, [])
      else (ERROR_OK, st1, rds, [])
    | none => (ERROR_OK, st1, rds, [])

/-! ### Predicates used by the theorem statements -/

/-- Tick `i` of a polling loop neither stops on a fatal bit nor on the
success pattern (a failed read also keeps polling). -/
def keepsPolling (s : Shim) (f : FamRegs) (i : Nat) : Prop :=
  ∀ v, s.readVal i = some v → v &&& f.fatalMask = 0 ∧ ¬(v &&& f.okMask = f.okPat)

/-- The guard-and-unlock prefix of a mass-erase / erase / write sequence
(busy check, error-flag clear, unlock) succeeds entirely, starting from
trace `t`. -/
def chainOKGen (s : Shim) (f : FamRegs) (t : Trace) : Prop :=
  (checkNoOpGen s f t).1 = ERROR_OK ∧
  (clearErrorFlagsGen s f (checkNoOpGen s f t).2).1 = ERROR_OK ∧
  (unlockGen s f (clearErrorFlagsGen s f (checkNoOpGen s f t).2).2).1 = ERROR_OK

/-! ### Concrete shims, environments and bank states used as inputs -/

/-- Fully cooperative target: every status read returns `0x00010000`
(EOP set, not busy, no errors, unlocked) and every write succeeds. -/
def shimCoop : Shim := ⟨fun _ => some 0x00010000, fun _ => true, fun _ => true⟩

/-- Every status read returns 0 (idle, unlocked), every write succeeds. -/
def shimZero : Shim := ⟨fun _ => some 0, fun _ => true, fun _ => true⟩

/-- First status read shows the H5 busy bit `0x1`, so `CheckNoOp_H5`
fails right away. -/
def shimBusy : Shim := ⟨fun _ => some 0x00000001, fun _ => true, fun _ => true⟩

/-- For `Erase_H5 first=0 last=1`: reads 0 and 1 (busy check, unlock)
return 0, every later read returns the H5 success pattern; register write
number 1 — the sector-0 control-word write — fails, all others succeed. -/
def shimC4 : Shim :=
  ⟨fun n => if n ≤ 1 then some 0 else some 0x00010000,
   fun n => if n = 1 then false else true,
   fun _ => true⟩

/-- For `MassErase_H7`: the very first read (bank 0 busy check) shows the
busy bit, every later read returns 0; all writes succeed, so the bank-0
pass fails and the bank-1 pass succeeds. -/
def shimC10 : Shim :=
  ⟨fun n => if n = 0 then some 1 else some 0, fun _ => true, fun _ => true⟩

/-- Every status read shows a fatal-error bit of the H5/H7 masks
(`0x00020000`). -/
def shimFatal : Shim := ⟨fun _ => some 0x00020000, fun _ => true, fun _ => true⟩

/-- Every status read shows a fatal-error bit of the U5 mask (`0x2`). -/
def shimFatalU5 : Shim := ⟨fun _ => some 0x00000002, fun _ => true, fun _ => true⟩

/-- Every status read returns 1: for the H5 family this is neither fatal
nor the success pattern, so the poll loop runs to exhaustion. -/
def shimPoll : Shim := ⟨fun _ => some 1, fun _ => true, fun _ => true⟩

/-- Examined ARMv8-M target whose identification registers all read back 0,
so no descriptor matches. -/
def envC2 : ProbeEnv := ⟨true, true, ArmArch.v8m, fun _ => some 0, fun _ => some 0⟩

/-- Fresh bank at the flash base address. -/
def stFresh : BankState := ⟨0x08000000, 0, 0, 0, 0, 0, 0, none⟩

/-- Examined ARMv8-M target that identifies as an STM32H562/563/573
(IDCODE `0x484` at `0x44024000`) and reports 256 KiB of flash. -/
def envC6 : ProbeEnv :=
  ⟨true, true, ArmArch.v8m,
   fun a => if a = 0x44024000 then some 0x484 else some 0,
   fun _ => some 0x100⟩

/-- Fresh bank declared at `0x09000000`, which is not the flash base
address of any descriptor. -/
def stBaseMis : BankState := ⟨0x09000000, 0, 0, 0, 0, 0, 0, none⟩

/-- Examined ARMv8-M target whose flash-size register reads back 0. -/
def envC5 : ProbeEnv := ⟨true, true, ArmArch.v8m, fun _ => some 0, fun _ => some 0⟩

/-- Bank already bound to the STM32H562/563/573 descriptor, at the right
base address, with a caller-declared size of 4096 bytes. -/
def stC5 : BankState := ⟨0x08000000, 4096, 0, 0, 0, 0, 0, some devH56⟩

/-! ### Helper lemmas about the primitive operations -/

theorem ERROR_FAIL_ne_OK : ¬ (ERROR_FAIL = ERROR_OK) := by decide

theorem ERROR_RNA_ne_OK : ¬ (ERROR_TARGET_RESOURCE_NOT_AVAILABLE = ERROR_OK) := by decide

theorem doWrite_tr (s : Shim) (t : Trace) (addr v : Nat) :
    (doWrite s t addr v).2 = { t with writes := t.writes ++ [(addr, v)] } := by
  unfold doWrite
  split <;> rfl

theorem checkNoOpGen_tr (s : Shim) (f : FamRegs) (t : Trace) :
    (checkNoOpGen s f t).2 = { t with reads := t.reads ++ [f.sr] } := by
  unfold checkNoOpGen doRead
  cases h : s.readVal t.reads.length <;> simp only [h] <;> split <;>
    first
    | rfl
    | (split <;> rfl)

theorem clearErrorFlagsGen_tr (s : Shim) (f : FamRegs) (t : Trace) :
    (clearErrorFlagsGen s f t).2 = { t with writes := t.writes ++ [(f.ccr, f.clrPat)] } := by
  unfold clearErrorFlagsGen
  exact doWrite_tr s t f.ccr f.clrPat

theorem lockGen_tr (s : Shim) (f : FamRegs) (t : Trace) :
    (lockGen s f t).2 = { t with writes := t.writes ++ [(f.cr, f.lockPat)] } := by
  unfold lockGen
  exact doWrite_tr s t f.cr f.lockPat

theorem unlockGen_unlocked (s : Shim) (f : FamRegs) (t : Trace) (v : Nat)
    (hv : s.readVal t.reads.length = some v) (hl : v &&& f.lockMask = 0) :
    unlockGen s f t = (ERROR_OK, { t with reads := t.reads ++ [f.cr] }) := by
  unfold unlockGen doRead
  simp [hv, hl]

theorem unlockGen_locked_writes (s : Shim) (f : FamRegs) (t : Trace) (v : Nat)
    (hv : s.readVal t.reads.length = some v) (hl : ¬(v &&& f.lockMask = 0)) :
    (unlockGen s f t).2.writes = t.writes ++ [(f.key, 0x45670123)] ∨
    (unlockGen s f t).2.writes = t.writes ++ [(f.key, 0x45670123), (f.key, 0xcdef89ab)] := by
  cases hw1 : s.writeOk t.writes.length
  · left
    simp [unlockGen, doRead, doWrite, hv, hl, hw1, ERROR_FAIL_ne_OK]
  · cases hw2 : s.writeOk (t.writes.length + 1)
    · right
      simp [unlockGen, doRead, doWrite, hv, hl, hw1, hw2, ERROR_FAIL_ne_OK]
    · right
      cases hr2 : s.readVal (t.reads.length + 1)
      · simp [unlockGen, doRead, doWrite, hv, hl, hw1, hw2, hr2, ERROR_FAIL_ne_OK]
      · simp [unlockGen, doRead, doWrite, hv, hl, hw1, hw2, hr2, ERROR_FAIL_ne_OK]
        split <;> simp

theorem wait4EOPGen_writes (s : Shim) (f : FamRegs) (n : Nat) :
    ∀ t : Trace,
      (wait4EOPGen s f n t).2.writes = t.writes ∧ (wait4EOPGen s f n t).2.bursts = t.bursts := by
  induction n with
  | zero => intro t; exact ⟨rfl, rfl⟩
  | succ n ih =>
    intro t
    cases hr : s.readVal t.reads.length with
    | none =>
      simp only [wait4EOPGen, doRead, hr]
      rw [if_neg ERROR_FAIL_ne_OK]
      exact ih _
    | some v =>
      simp only [wait4EOPGen, doRead, hr]
      rw [if_pos trivial]
      by_cases hf : v &&& f.fatalMask ≠ 0
      · rw [if_pos hf]
        exact ⟨rfl, rfl⟩
      · rw [if_neg hf]
        by_cases ho : v &&& f.okMask = f.okPat
        · rw [if_pos ho]
          exact ⟨rfl, rfl⟩
        · rw [if_neg ho]
          exact ih _

theorem wait4EOPGen_fatal (s : Shim) (f : FamRegs) (k : Nat) :
    ∀ (timeout : Nat) (t : Trace) (v : Nat),
      k < timeout →
      (∀ j, j < k → keepsPolling s f (t.reads.length + j)) →
      s.readVal (t.reads.length + k) = some v →
      v &&& f.fatalMask ≠ 0 →
      wait4EOPGen s f timeout t =
        (ERROR_FAIL, { t with reads := t.reads ++ List.replicate (k + 1) f.sr }) := by
  induction k with
  | zero =>
    intro timeout t v hkt _ hread hfatal
    match timeout, hkt with
    | timeout + 1, _ =>
      rw [Nat.add_zero] at hread
      simp only [wait4EOPGen, doRead, hread]
      rw [if_pos trivial, if_pos hfatal]
      rfl
  | succ k ih =>
    intro timeout t v hkt hkeep hread hfatal
    match timeout, hkt with
    | timeout + 1, _ =>
      have h1 : ({ t with reads := t.reads ++ [f.sr] } : Trace).reads.length
          = t.reads.length + 1 := by simp
      have hkeep' : ∀ j, j < k →
          keepsPolling s f (({ t with reads := t.reads ++ [f.sr] } : Trace).reads.length + j) := by
        intro j hj
        rw [h1, show t.reads.length + 1 + j = t.reads.length + (j + 1) by omega]
        exact hkeep (j + 1) (by omega)
      have hread' : s.readVal
          (({ t with reads := t.reads ++ [f.sr] } : Trace).reads.length + k) = some v := by
        rw [h1, show t.reads.length + 1 + k = t.reads.length + (k + 1) by omega]
        exact hread
      have hrec := ih timeout ({ t with reads := t.reads ++ [f.sr] }) v (by omega) hkeep' hread' hfatal
      cases hr : s.readVal t.reads.length with
      | none =>
        simp only [wait4EOPGen, doRead, hr]
        rw [if_neg ERROR_FAIL_ne_OK, hrec]
        simp [List.replicate_succ]
      | some w =>
        obtain ⟨hf0, hok⟩ := hkeep 0 (Nat.succ_pos k) w hr
        simp only [wait4EOPGen, doRead, hr]
        rw [if_pos trivial, if_neg (not_not_intro hf0), if_neg hok, hrec]
        simp [List.replicate_succ]

theorem wait4EOPGen_exhaust (s : Shim) (f : FamRegs) (timeout : Nat) :
    ∀ t : Trace,
      (∀ j, j < timeout → keepsPolling s f (t.reads.length + j)) →
      wait4EOPGen s f timeout t =
        (ERROR_FAIL, { t with reads := t.reads ++ List.replicate timeout f.sr }) := by
  induction timeout with
  | zero => intro t _; simp [wait4EOPGen]
  | succ n ih =>
    intro t hkeep
    have h1 : ({ t with reads := t.reads ++ [f.sr] } : Trace).reads.length
        = t.reads.length + 1 := by simp
    have hkeep' : ∀ j, j < n →
        keepsPolling s f (({ t with reads := t.reads ++ [f.sr] } : Trace).reads.length + j) := by
      intro j hj
      rw [h1, show t.reads.length + 1 + j = t.reads.length + (j + 1) by omega]
      exact hkeep (j + 1) (by omega)
    have hrec := ih ({ t with reads := t.reads ++ [f.sr] }) hkeep'
    cases hr : s.readVal t.reads.length with
    | none =>
      simp only [wait4EOPGen, doRead, hr]
      rw [if_neg ERROR_FAIL_ne_OK, hrec]
      simp [List.replicate_succ]
    | some w =>
      obtain ⟨hf0, hok⟩ := hkeep 0 (Nat.succ_pos n) w hr
      simp only [wait4EOPGen, doRead, hr]
      rw [if_pos trivial, if_neg (not_not_intro hf0), if_neg hok, hrec]
      simp [List.replicate_succ]

theorem wait4EOPGen_tr_writes (s : Shim) (f : FamRegs) (n : Nat) (t : Trace) :
    (wait4EOPGen s f n t).2.writes = t.writes :=
  (wait4EOPGen_writes s f n t).1

theorem wait4EOPGen_tr_bursts (s : Shim) (f : FamRegs) (n : Nat) (t : Trace) :
    (wait4EOPGen s f n t).2.bursts = t.bursts :=
  (wait4EOPGen_writes s f n t).2

theorem unlockGen_writes_shape (s : Shim) (f : FamRegs) (t : Trace) :
    (unlockGen s f t).2.writes = t.writes ∨
    (unlockGen s f t).2.writes = t.writes ++ [(f.key, 0x45670123)] ∨
    (unlockGen s f t).2.writes = t.writes ++ [(f.key, 0x45670123), (f.key, 0xcdef89ab)] := by
  cases hv : s.readVal t.reads.length with
  | none =>
    left
    simp [unlockGen, doRead, hv, ERROR_FAIL_ne_OK]
  | some v =>
    by_cases hl : v &&& f.lockMask = 0
    · left
      rw [unlockGen_unlocked s f t v hv hl]
    · rcases unlockGen_locked_writes s f t v hv hl with h | h
      · exact Or.inr (Or.inl h)
      · exact Or.inr (Or.inr h)

theorem massEraseSeq_count_chainOK (s : Shim) (f : FamRegs) (t : Trace)
    (hcc : f.ccr ≠ f.cr) (hck : f.key ≠ f.cr) (hsp : f.startPat ≠ f.lockPat)
    (h0 : f.lockPat ≠ 0) (hch : chainOKGen s f t) :
    ((massEraseSeq s f t).2.writes).count (f.cr, f.lockPat)
      = t.writes.count (f.cr, f.lockPat) + 1 := by
  obtain ⟨h1, h2, h3⟩ := hch
  simp only [massEraseSeq]
  rw [if_pos h1, if_pos h2, if_pos h3]
  rcases unlockGen_writes_shape s f (clearErrorFlagsGen s f (checkNoOpGen s f t).2).2
    with h | h | h <;>
  · by_cases h4 : (doWrite s (unlockGen s f (clearErrorFlagsGen s f (checkNoOpGen s f t).2).2).2
        f.cr f.startPat).1 = ERROR_OK
    · rw [if_pos h4]
      simp only [lockGen_tr, doWrite_tr, wait4EOPGen_tr_writes]
      rw [h]
      simp [clearErrorFlagsGen_tr, checkNoOpGen_tr,
        List.count_append, List.count_cons, hcc, hck, hsp, Ne.symm h0]
    · rw [if_neg h4]
      simp only [lockGen_tr, doWrite_tr]
      rw [h]
      simp [clearErrorFlagsGen_tr, checkNoOpGen_tr,
        List.count_append, List.count_cons, hcc, hck, hsp, Ne.symm h0]

theorem massEraseSeq_count_chainFail (s : Shim) (f : FamRegs) (t : Trace)
    (hcc : f.ccr ≠ f.cr) (hck : f.key ≠ f.cr) (hch : ¬ chainOKGen s f t) :
    ((massEraseSeq s f t).2.writes).count (f.cr, f.lockPat)
      = t.writes.count (f.cr, f.lockPat) := by
  by_cases h1 : (checkNoOpGen s f t).1 = ERROR_OK
  · by_cases h2 : (clearErrorFlagsGen s f (checkNoOpGen s f t).2).1 = ERROR_OK
    · by_cases h3 : (unlockGen s f (clearErrorFlagsGen s f (checkNoOpGen s f t).2).2).1 = ERROR_OK
      · exact absurd ⟨h1, h2, h3⟩ hch
      · simp only [massEraseSeq]
        rw [if_pos h1, if_pos h2, if_neg h3]
        rcases unlockGen_writes_shape s f (clearErrorFlagsGen s f (checkNoOpGen s f t).2).2
          with h | h | h <;>
        · rw [h]
          simp [clearErrorFlagsGen_tr, checkNoOpGen_tr,
            List.count_append, List.count_cons, hcc, hck]
    · simp only [massEraseSeq]
      rw [if_pos h1, if_neg h2]
      simp [clearErrorFlagsGen_tr, checkNoOpGen_tr, List.count_append, List.count_cons, hcc]
  · simp only [massEraseSeq]
    rw [if_neg h1]
    rw [checkNoOpGen_tr]

theorem massEraseSeq_count_other (s : Shim) (f : FamRegs) (t : Trace) (a p : Nat)
    (ha : a ≠ f.ccr) (hk : a ≠ f.key) (hc : a ≠ f.cr) :
    ((massEraseSeq s f t).2.writes).count (a, p) = t.writes.count (a, p) := by
  by_cases h1 : (checkNoOpGen s f t).1 = ERROR_OK
  · by_cases h2 : (clearErrorFlagsGen s f (checkNoOpGen s f t).2).1 = ERROR_OK
    · by_cases h3 : (unlockGen s f (clearErrorFlagsGen s f (checkNoOpGen s f t).2).2).1 = ERROR_OK
      · simp only [massEraseSeq]
        rw [if_pos h1, if_pos h2, if_pos h3]
        rcases unlockGen_writes_shape s f (clearErrorFlagsGen s f (checkNoOpGen s f t).2).2
          with h | h | h <;>
        · by_cases h4 : (doWrite s
              (unlockGen s f (clearErrorFlagsGen s f (checkNoOpGen s f t).2).2).2
              f.cr f.startPat).1 = ERROR_OK
          · rw [if_pos h4]
            simp only [lockGen_tr, doWrite_tr, wait4EOPGen_tr_writes]
            rw [h]
            simp [clearErrorFlagsGen_tr, checkNoOpGen_tr,
              List.count_append, List.count_cons, Ne.symm ha, Ne.symm hk, Ne.symm hc]
          · rw [if_neg h4]
            simp only [lockGen_tr, doWrite_tr]
            rw [h]
            simp [clearErrorFlagsGen_tr, checkNoOpGen_tr,
              List.count_append, List.count_cons, Ne.symm ha, Ne.symm hk, Ne.symm hc]
      · simp only [massEraseSeq]
        rw [if_pos h1, if_pos h2, if_neg h3]
        rcases unlockGen_writes_shape s f (clearErrorFlagsGen s f (checkNoOpGen s f t).2).2
          with h | h | h <;>
        · rw [h]
          simp [clearErrorFlagsGen_tr, checkNoOpGen_tr,
            List.count_append, List.count_cons, Ne.symm ha, Ne.symm hk]
    · simp only [massEraseSeq]
      rw [if_pos h1, if_neg h2]
      simp [clearErrorFlagsGen_tr, checkNoOpGen_tr,
        List.count_append, List.count_cons, Ne.symm ha]
  · simp only [massEraseSeq]
    rw [if_neg h1]
    rw [checkNoOpGen_tr]

theorem massErase_H7_eq (s : Shim) (t : Trace) :
    MassErase_H7 s t = massErasePass_H7 s 1 (massErasePass_H7 s 0 t).2 := by
  simp [MassErase_H7, massEraseLoop_H7]

theorem probeScan_none (env : ProbeEnv) :
    ∀ l : List DeviceDef,
      (∀ d ∈ l, env.arch = d.ARMArch →
        ∀ v, env.readU32At d.IDCODE_RomTableAddr = some v → ¬ d.DevID = v &&& 0x0fff) →
      (probeScan env l).1 = none := by
  intro l
  induction l with
  | nil => intro _; rfl
  | cons d rest ih =>
    intro hno
    by_cases harch : env.arch = d.ARMArch
    · cases hread : env.readU32At d.IDCODE_RomTableAddr with
      | none =>
        simp only [probeScan, harch, hread, if_pos trivial]
        exact ih fun e he => hno e (List.mem_cons_of_mem d he)
      | some idcode =>
        have hne := hno d (List.mem_cons_self d rest) harch idcode hread
        simp only [probeScan, harch, hread, if_pos trivial]
        rw [if_neg hne]
        exact ih fun e he => hno e (List.mem_cons_of_mem d he)
    · simp only [probeScan]
      rw [if_neg harch]
      exact ih fun e he => hno e (List.mem_cons_of_mem d he)

/-! ### Claim theorems -/

/-- Claim C8: for every wait-for-completion invocation (any family) with
timeout `t > 0`, if on some tick the status read succeeds and a bit of the
family's fatal-error mask is set, the function returns failure on that same
tick, having performed exactly `k + 1` status reads and no more; and a run
that never observes a fatal bit or the success pattern performs exactly the
`timeout` status reads (hence at most `timeout`) and returns failure. -/
theorem c8_wait4EOP_fatal_immediate (s : Shim) (t : Trace) (timeout k v b : Nat) :
    (k < timeout →
      (∀ j, j < k → keepsPolling s famH5 (t.reads.length + j)) →
      s.readVal (t.reads.length + k) = some v →
      v &&& famH5.fatalMask ≠ 0 →
      Wait4EOP_H5 s timeout t =
        (ERROR_FAIL, { t with reads := t.reads ++ List.replicate (k + 1) H5_NSSR })) ∧
    (k < timeout →
      (∀ j, j < k → keepsPolling s (famH7 b) (t.reads.length + j)) →
      s.readVal (t.reads.length + k) = some v →
      v &&& (famH7 b).fatalMask ≠ 0 →
      Wait4EOP_H7 s b timeout t =
        (ERROR_FAIL, { t with reads := t.reads ++ List.replicate (k + 1) (H7_SR b) })) ∧
    (k < timeout →
      (∀ j, j < k → keepsPolling s famU5 (t.reads.length + j)) →
      s.readVal (t.reads.length + k) = some v →
      v &&& famU5.fatalMask ≠ 0 →
      Wait4EOP_U5 s timeout t =
        (ERROR_FAIL, { t with reads := t.reads ++ List.replicate (k + 1) U5_NSSR })) ∧
    ((∀ j, j < timeout → keepsPolling s famH5 (t.reads.length + j)) →
      Wait4EOP_H5 s timeout t =
        (ERROR_FAIL, { t with reads := t.reads ++ List.replicate timeout H5_NSSR })) ∧
    ((∀ j, j < timeout → keepsPolling s (famH7 b) (t.reads.length + j)) →
      Wait4EOP_H7 s b timeout t =
        (ERROR_FAIL, { t with reads := t.reads ++ List.replicate timeout (H7_SR b) })) ∧
    ((∀ j, j < timeout → keepsPolling s famU5 (t.reads.length + j)) →
      Wait4EOP_U5 s timeout t =
        (ERROR_FAIL, { t with reads := t.reads ++ List.replicate timeout U5_NSSR })) := by
  refine ⟨?_, ?_, ?_, ?_, ?_, ?_⟩
  · exact fun h1 h2 h3 h4 => wait4EOPGen_fatal s famH5 k timeout t v h1 h2 h3 h4
  · exact fun h1 h2 h3 h4 => wait4EOPGen_fatal s (famH7 b) k timeout t v h1 h2 h3 h4
  · exact fun h1 h2 h3 h4 => wait4EOPGen_fatal s famU5 k timeout t v h1 h2 h3 h4
  · exact fun h => wait4EOPGen_exhaust s famH5 timeout t h
  · exact fun h => wait4EOPGen_exhaust s (famH7 b) timeout t h
  · exact fun h => wait4EOPGen_exhaust s famU5 timeout t h

/-- Witness for C8: with a shim whose first status read shows a fatal bit,
each family's wait loop fails after exactly one read of a 5-tick budget;
with a shim that always reads a neither-fatal-nor-done value, the H5 loop
performs exactly its 3 reads and fails. -/
theorem c8_witness :
    Wait4EOP_H5 shimFatal 5 Trace.empty = (ERROR_FAIL, ⟨[H5_NSSR], [], []⟩) ∧
    Wait4EOP_H7 shimFatal 0 5 Trace.empty = (ERROR_FAIL, ⟨[H7_SR 0], [], []⟩) ∧
    Wait4EOP_U5 shimFatalU5 5 Trace.empty = (ERROR_FAIL, ⟨[U5_NSSR], [], []⟩) ∧
    Wait4EOP_H5 shimPoll 3 Trace.empty =
      (ERROR_FAIL, ⟨[H5_NSSR, H5_NSSR, H5_NSSR], [], []⟩) := by
  refine ⟨?_, ?_, ?_, ?_⟩
  · have h := (c8_wait4EOP_fatal_immediate shimFatal Trace.empty 5 0 0x00020000 0).1
      (by decide) (fun j hj => absurd hj (Nat.not_lt_zero j)) rfl (by decide)
    simpa using h
  · have h := (c8_wait4EOP_fatal_immediate shimFatal Trace.empty 5 0 0x00020000 0).2.1
      (by decide) (fun j hj => absurd hj (Nat.not_lt_zero j)) rfl (by decide)
    simpa using h
  · have h := (c8_wait4EOP_fatal_immediate shimFatalU5 Trace.empty 5 0 0x00000002 0).2.2.1
      (by decide) (fun j hj => absurd hj (Nat.not_lt_zero j)) rfl (by decide)
    simpa using h
  · have h := (c8_wait4EOP_fatal_immediate shimPoll Trace.empty 3 0 1 0).2.2.2.1
      (fun j _ v hv => by
        simp only [shimPoll, Option.some.injEq] at hv
        subst hv
        decide)
    simpa using h

/-- Claim C9: for every Unlock invocation (any family), if the initial
control-register read succeeds and the lock bit is already clear, Unlock
returns success having issued no register writes; key-register writes occur
only when the lock bit was set, and then the two key constants are written
at most once each, in order, with no retry. -/
theorem c9_unlock_idempotent (s : Shim) (t : Trace) (v b : Nat)
    (hv : s.readVal t.reads.length = some v) :
    ((v &&& famH5.lockMask = 0 →
        Unlock_H5 s t = (ERROR_OK, { t with reads := t.reads ++ [H5_NSCR] })) ∧
     (¬(v &&& famH5.lockMask = 0) →
        (Unlock_H5 s t).2.writes = t.writes ++ [(H5_NSKEYR, 0x45670123)] ∨
        (Unlock_H5 s t).2.writes =
          t.writes ++ [(H5_NSKEYR, 0x45670123), (H5_NSKEYR, 0xcdef89ab)])) ∧
    ((v &&& famU5.lockMask = 0 →
        Unlock_U5 s t = (ERROR_OK, { t with reads := t.reads ++ [U5_NSCR] })) ∧
     (¬(v &&& famU5.lockMask = 0) →
        (Unlock_U5 s t).2.writes = t.writes ++ [(U5_NSKEYR, 0x45670123)] ∨
        (Unlock_U5 s t).2.writes =
          t.writes ++ [(U5_NSKEYR, 0x45670123), (U5_NSKEYR, 0xcdef89ab)])) ∧
    ((v &&& (famH7 b).lockMask = 0 →
        Unlock_H7 s b t = (ERROR_OK, { t with reads := t.reads ++ [H7_CR b] })) ∧
     (¬(v &&& (famH7 b).lockMask = 0) →
        (Unlock_H7 s b t).2.writes = t.writes ++ [(H7_KEYR b, 0x45670123)] ∨
        (Unlock_H7 s b t).2.writes =
          t.writes ++ [(H7_KEYR b, 0x45670123), (H7_KEYR b, 0xcdef89ab)])) := by
  refine ⟨⟨?_, ?_⟩, ⟨?_, ?_⟩, ⟨?_, ?_⟩⟩
  · exact fun hl => unlockGen_unlocked s famH5 t v hv hl
  · exact fun hl => unlockGen_locked_writes s famH5 t v hv hl
  · exact fun hl => unlockGen_unlocked s famU5 t v hv hl
  · exact fun hl => unlockGen_locked_writes s famU5 t v hv hl
  · exact fun hl => unlockGen_unlocked s (famH7 b) t v hv hl
  · exact fun hl => unlockGen_locked_writes s (famH7 b) t v hv hl

/-- Witness for C9: on a target whose control registers read back 0
(lock bit clear), each family's Unlock returns success with exactly one
register read and no writes. -/
theorem c9_witness :
    Unlock_H5 shimZero Trace.empty = (ERROR_OK, ⟨[H5_NSCR], [], []⟩) ∧
    Unlock_U5 shimZero Trace.empty = (ERROR_OK, ⟨[U5_NSCR], [], []⟩) ∧
    Unlock_H7 shimZero 1 Trace.empty = (ERROR_OK, ⟨[H7_CR 1], [], []⟩) := by
  have h := c9_unlock_idempotent shimZero Trace.empty 0 1 rfl
  exact ⟨h.1.1 (by decide), h.2.1.1 (by decide), h.2.2.1 (by decide)⟩

/-- Claim C10: the status returned by `MassErase_H7` is exactly the status
of the second (bank 1) pass of its loop; in particular, whenever the bank-0
pass fails and the bank-1 pass succeeds, `MassErase_H7` returns success and
the bank-0 failure is not reflected in the result. -/
theorem c10_massErase_H7_returns_second_pass (s : Shim) :
    MassErase_H7 s Trace.empty = massErasePass_H7 s 1 (massErasePass_H7 s 0 Trace.empty).2 ∧
    ((massErasePass_H7 s 0 Trace.empty).1 ≠ ERROR_OK →
      (massErasePass_H7 s 1 (massErasePass_H7 s 0 Trace.empty).2).1 = ERROR_OK →
      (MassErase_H7 s Trace.empty).1 = ERROR_OK) := by
  refine ⟨massErase_H7_eq s Trace.empty, fun _ h2 => ?_⟩
  rw [massErase_H7_eq s Trace.empty]
  exact h2

/-- Witness for C10: a run where bank 0's busy check fails but bank 1's
whole sequence succeeds; `MassErase_H7` reports success. -/
theorem c10_witness :
    (massErasePass_H7 shimC10 0 Trace.empty).1 = ERROR_TARGET_RESOURCE_NOT_AVAILABLE ∧
    (MassErase_H7 shimC10 Trace.empty).1 = ERROR_OK := by
  refine ⟨by decide, ?_⟩
  exact (c10_massErase_H7_returns_second_pass shimC10).2 (by decide) (by decide)

/-- Counterexample to claim C3 as stated: in the execution where the H5
busy check fails (status read shows a busy bit), `MassErase_H5` returns
without attempting the lock-pattern write even once — the count of
`(H5_NSCR, 0x1)` writes is 0, not 1. -/
theorem c3_counterexample :
    (MassErase_H5 shimBusy Trace.empty).1 = ERROR_TARGET_RESOURCE_NOT_AVAILABLE ∧
    ((MassErase_H5 shimBusy Trace.empty).2.writes).count (H5_NSCR, 0x00000001) = 0 := by
  decide

/-- Claim C3 (amended): per invocation, the lock-pattern write into the
control register is attempted exactly once per physical bank in every
execution where that bank's busy check, error-flag clear and unlock all
succeed — including when the erase start or the wait fails — and zero
times for a bank whose busy check, error-flag clear or unlock fails. -/
theorem c3_massErase_lock_amended (s : Shim) :
    (chainOKGen s famH5 Trace.empty →
      ((MassErase_H5 s Trace.empty).2.writes).count (H5_NSCR, 0x00000001) = 1) ∧
    (¬ chainOKGen s famH5 Trace.empty →
      ((MassErase_H5 s Trace.empty).2.writes).count (H5_NSCR, 0x00000001) = 0) ∧
    (chainOKGen s famU5 Trace.empty →
      ((MassErase_U5 s Trace.empty).2.writes).count (U5_NSCR, 0x80000000) = 1) ∧
    (¬ chainOKGen s famU5 Trace.empty →
      ((MassErase_U5 s Trace.empty).2.writes).count (U5_NSCR, 0x80000000) = 0) ∧
    (chainOKGen s (famH7 0) Trace.empty →
      ((MassErase_H7 s Trace.empty).2.writes).count (H7_CR 0, 0x00000001) = 1) ∧
    (¬ chainOKGen s (famH7 0) Trace.empty →
      ((MassErase_H7 s Trace.empty).2.writes).count (H7_CR 0, 0x00000001) = 0) ∧
    (chainOKGen s (famH7 1) (massErasePass_H7 s 0 Trace.empty).2 →
      ((MassErase_H7 s Trace.empty).2.writes).count (H7_CR 1, 0x00000001) = 1) ∧
    (¬ chainOKGen s (famH7 1) (massErasePass_H7 s 0 Trace.empty).2 →
      ((MassErase_H7 s Trace.empty).2.writes).count (H7_CR 1, 0x00000001) = 0) := by
  refine ⟨?_, ?_, ?_, ?_, ?_, ?_, ?_, ?_⟩
  · intro hch
    have h := massEraseSeq_count_chainOK s famH5 Trace.empty
      (by decide) (by decide) (by decide) (by decide) hch
    simpa [MassErase_H5] using h
  · intro hch
    have h := massEraseSeq_count_chainFail s famH5 Trace.empty (by decide) (by decide) hch
    simpa [MassErase_H5] using h
  · intro hch
    have h := massEraseSeq_count_chainOK s famU5 Trace.empty
      (by decide) (by decide) (by decide) (by decide) hch
    simpa [MassErase_U5] using h
  · intro hch
    have h := massEraseSeq_count_chainFail s famU5 Trace.empty (by decide) (by decide) hch
    simpa [MassErase_U5] using h
  · intro hch
    have h1 := massEraseSeq_count_other s (famH7 1) (massErasePass_H7 s 0 Trace.empty).2
      (H7_CR 0) 0x00000001 (by decide) (by decide) (by decide)
    have h2 := massEraseSeq_count_chainOK s (famH7 0) Trace.empty
      (by decide) (by decide) (by decide) (by decide) hch
    rw [massErase_H7_eq]
    simp only [massErasePass_H7] at h1 h2 ⊢
    simp only [show (famH7 0).cr = H7_CR 0 from rfl,
      show (famH7 0).lockPat = 0x00000001 from rfl] at h2
    rw [h1, h2]
    simp [Trace.empty]
  · intro hch
    have h1 := massEraseSeq_count_other s (famH7 1) (massErasePass_H7 s 0 Trace.empty).2
      (H7_CR 0) 0x00000001 (by decide) (by decide) (by decide)
    have h2 := massEraseSeq_count_chainFail s (famH7 0) Trace.empty
      (by decide) (by decide) hch
    rw [massErase_H7_eq]
    simp only [massErasePass_H7] at h1 h2 ⊢
    simp only [show (famH7 0).cr = H7_CR 0 from rfl,
      show (famH7 0).lockPat = 0x00000001 from rfl] at h2
    rw [h1, h2]
    simp [Trace.empty]
  · intro hch
    have h1 := massEraseSeq_count_other s (famH7 0) Trace.empty
      (H7_CR 1) 0x00000001 (by decide) (by decide) (by decide)
    have h2 := massEraseSeq_count_chainOK s (famH7 1) (massErasePass_H7 s 0 Trace.empty).2
      (by decide) (by decide) (by decide) (by decide) hch
    rw [massErase_H7_eq]
    simp only [massErasePass_H7] at h1 h2 ⊢
    simp only [show (famH7 1).cr = H7_CR 1 from rfl,
      show (famH7 1).lockPat = 0x00000001 from rfl] at h2
    rw [h2, h1]
    simp [Trace.empty]
  · intro hch
    have h1 := massEraseSeq_count_other s (famH7 0) Trace.empty
      (H7_CR 1) 0x00000001 (by decide) (by decide) (by decide)
    have h2 := massEraseSeq_count_chainFail s (famH7 1) (massErasePass_H7 s 0 Trace.empty).2
      (by decide) (by decide) hch
    rw [massErase_H7_eq]
    simp only [massErasePass_H7] at h1 h2 ⊢
    simp only [show (famH7 1).cr = H7_CR 1 from rfl,
      show (famH7 1).lockPat = 0x00000001 from rfl] at h2
    rw [h2, h1]
    simp [Trace.empty]

/-- Witness for C3 (amended): on a fully cooperative target each family's
mass erase attempts the lock-pattern write exactly once per physical bank
(one for U5/H5, one per H7 bank). -/
theorem c3_witness :
    ((MassErase_H5 shimZero Trace.empty).2.writes).count (H5_NSCR, 0x00000001) = 1 ∧
    ((MassErase_U5 shimZero Trace.empty).2.writes).count (U5_NSCR, 0x80000000) = 1 ∧
    ((MassErase_H7 shimZero Trace.empty).2.writes).count (H7_CR 0, 0x00000001) = 1 ∧
    ((MassErase_H7 shimZero Trace.empty).2.writes).count (H7_CR 1, 0x00000001) = 1 := by
  have h := c3_massErase_lock_amended shimZero
  exact ⟨h.1 (by unfold chainOKGen; decide), h.2.2.1 (by unfold chainOKGen; decide),
    h.2.2.2.2.1 (by unfold chainOKGen; decide),
    h.2.2.2.2.2.2.1 (by unfold chainOKGen; decide)⟩

/-- Claim C1 (code bug evidence): on the claim's own 128-sector bank
(1 MiB / 8 KiB) the code aborts on its `nSectorsPerBank < 0x7f` assert for
both `Erase(0,0)` and `Erase(70,70)`, because `nSectorsPerBank` is set to
`nSectorsTotal` (128) instead of half of it; the control word the code
computes for sector 70 has the second-bank-select bit clear, while the
spec's control word (64 sectors per bank) selects bank 2 with local index
6; and on a 4-sector bank, which the asserts do admit, the full `Erase_H5`
run writes `0xa4` for sector 2 — upper half, yet no second-bank bit —
where the spec's word is `0x24 | 0x80000000`. -/
theorem c1_erase_H5_bank_select :
    (Erase_H5 shimCoop (1024 * 1024) (8 * 1024) 0 0 Trace.empty = none ∧
     Erase_H5 shimCoop (1024 * 1024) (8 * 1024) 70 70 Trace.empty = none) ∧
    (eraseCR_H5 128 70 = 0x00000024 ||| (70 <<< 6) ∧
     eraseCR_H5 128 70 &&& 0x80000000 = 0 ∧
     eraseCRSpec_H5 128 70 = 0x00000024 ||| (6 <<< 6) ||| 0x80000000 ∧
     eraseCR_H5 128 70 ≠ eraseCRSpec_H5 128 70) ∧
    (Erase_H5 shimCoop (32 * 1024) (8 * 1024) 2 2 Trace.empty =
      some (ERROR_OK, ⟨[H5_NSSR, H5_NSCR, H5_NSSR],
        [(H5_NSCCR, 0x00ff0000), (H5_NSCR, 0x000000a4), (H5_NSCR, 0x00000000),
         (H5_NSCR, 0x00000001)], []⟩) ∧
     eraseCRSpec_H5 4 2 = 0x00000024 ||| 0x80000000) := by
  decide

/-- Claim C4 (code bug evidence): `Erase_H5 first=0 last=1` on a 2-sector
bank with a shim where the sector-0 control-word write fails: the loop does
not abort — the sector-1 control word `0x64` is still written after the
failed `0x24` write — and the final status is `ERROR_OK`, masking the
sector-0 failure; the lock write still happens exactly once at the end. -/
theorem c4_erase_H5_no_abort :
    shimC4.writeOk 1 = false ∧
    Erase_H5 shimC4 (16 * 1024) (8 * 1024) 0 1 Trace.empty =
      some (ERROR_OK, ⟨[H5_NSSR, H5_NSCR, H5_NSSR],
        [(H5_NSCCR, 0x00ff0000), (H5_NSCR, 0x00000024), (H5_NSCR, 0x00000064),
         (H5_NSCR, 0x00000000), (H5_NSCR, 0x00000001)], []⟩) := by
  decide

/-- Claim C7 (code bug evidence): `Write_H5` asserts `(addr & 127) == 0`,
i.e. 128-byte alignment, although the bus width is 16 bytes and `Probe`
sets `write_start_alignment` to 16 — so the 16-byte-aligned offset 16 hits
the assert (modelled as `none`) instead of issuing its single burst; at
offset 0 with 20 bytes the loop issues exactly 2 bursts, 16 bytes apart,
the second padded with 12 bytes of the erased-state value `0xff`. -/
theorem c7_write_H5_alignment_and_bursts :
    Write_H5 shimCoop 0x08000000 (512 * 1024) 16 (List.replicate 16 0x41) 16 16 Trace.empty
      = none ∧
    Write_H5 shimCoop 0x08000000 (512 * 1024) 16 (List.range 20) 0 20 Trace.empty =
      some (ERROR_OK, ⟨[H5_NSSR, H5_NSCR, H5_NSSR, H5_NSSR],
        [(H5_NSCCR, 0x00ff0000), (H5_NSCR, 0x00000002), (H5_NSCR, 0x00000000),
         (H5_NSCR, 0x00000001)],
        [(0x08000000, List.range 16),
         (0x08000010, [16, 17, 18, 19] ++ List.replicate 12 0xff)]⟩) := by
  decide

/-- Counterexample to claim C2 as stated: on an examined, supported
ARMv8-M target none of whose identification reads matches a descriptor,
`Probe` returns `ERROR_OK` — success, not failure (source comment
"Still probed.") — while the binding stays unresolved. -/
theorem c2_counterexample :
    (Probe envC2 stFresh).1 = ERROR_OK ∧ (Probe envC2 stFresh).2.1.Def = none := by
  decide

/-- Claim C2 (amended): on an examined ARM target with an unresolved
binding, when no descriptor's identification code matches, `Probe` returns
success (`ERROR_OK`, "still probed") — not failure — and the bank state is
left unchanged, the descriptor field remaining null. -/
theorem c2_probe_no_match_amended (env : ProbeEnv) (st : BankState)
    (hex : env.examined = true) (harm : env.isArm = true) (hdef : st.Def = none)
    (hno : ∀ d ∈ DeviceDefs, env.arch = d.ARMArch →
      ∀ v, env.readU32At d.IDCODE_RomTableAddr = some v → ¬ d.DevID = v &&& 0x0fff) :
    (Probe env st).1 = ERROR_OK ∧ (Probe env st).2.1 = st ∧
    (Probe env st).2.1.Def = none := by
  have hscan := probeScan_none env DeviceDefs hno
  simp only [Probe, hex, harm, hdef, hscan, not_true, if_false, Bool.not_true]
  simp [hdef]

/-- Witness for C2 (amended): the concrete no-match environment. -/
theorem c2_witness :
    (Probe envC2 stFresh).1 = ERROR_OK ∧ (Probe envC2 stFresh).2.1 = stFresh := by
  have h := c2_probe_no_match_amended envC2 stFresh rfl rfl rfl (by
    intro d hd ha v hv
    simp only [envC2, Option.some.injEq] at hv
    subst hv
    simp only [DeviceDefs, List.mem_cons, List.not_mem_nil, or_false] at hd
    rcases hd with rfl | rfl | rfl | rfl | rfl | rfl | rfl | rfl <;> decide)
  exact ⟨h.1, h.2.1⟩

/-- Counterexample to claim C5 as stated: the bank was declared with size
4096 (valid: nonzero, below the 2 MiB nominal maximum of the resolved
descriptor) and the capacity register reads back 0; the discovered value
is rejected, but the bank size stays 4096 — it is not set to the nominal
maximum as the claim demands for every initial bank size. -/
theorem c5_counterexample :
    (Probe envC5 stC5).2.1.size = 4096 ∧
    devH56.MaxFlashSize = 2097152 ∧
    (Probe envC5 stC5).2.1.size ≠ devH56.MaxFlashSize := by
  decide

/-- Claim C5 (amended): during capacity discovery, when the scaled raw
value is zero or exceeds the nominal maximum, it is rejected with a warning
and the bank size keeps the preliminarily adjusted value (the nominal
maximum only when the initial size was 0 or itself above the maximum,
otherwise the initial size); a valid scaled value becomes the bank size. -/
theorem c5_capacity_discovery_amended (maxFlash sizeAddr : Nat)
    (rd16 : Nat → Option Nat) (size0 v : Nat)
    (ha : sizeAddr ≠ 0) (hv : rd16 sizeAddr = some v) :
    ((v * 1024 = 0 ∨ maxFlash < v * 1024) →
      (discoverSize maxFlash sizeAddr rd16 size0).1 = adjSize maxFlash size0 ∧
      ProbeWarn.invalidSize ∈ (discoverSize maxFlash sizeAddr rd16 size0).2) ∧
    (0 < v * 1024 → v * 1024 ≤ maxFlash →
      (discoverSize maxFlash sizeAddr rd16 size0).1 = v * 1024) := by
  constructor
  · intro hbad
    have hcond : ¬(0 < v * 1024 ∧ v * 1024 ≤ maxFlash) := by
      rcases hbad with h | h <;> omega
    simp only [discoverSize]
    rw [if_pos ha, hv]
    simp only [Option.some.injEq]
    rw [if_neg hcond]
    exact ⟨rfl, by simp⟩
  · intro h1 h2
    simp only [discoverSize]
    rw [if_pos ha, hv]
    simp only [Option.some.injEq]
    rw [if_pos ⟨h1, h2⟩]
    split <;> rfl

/-- Witness for C5 (amended): a raw value of 0 is rejected and the
caller's 4096 survives; a raw value of 64 (64 KiB) is adopted. -/
theorem c5_witness :
    (discoverSize 524288 0x08fff80c (fun _ => some 0) 4096).1 = 4096 ∧
    ProbeWarn.invalidSize ∈ (discoverSize 524288 0x08fff80c (fun _ => some 0) 4096).2 ∧
    (discoverSize 524288 0x08fff80c (fun _ => some 64) 4096).1 = 65536 := by
  have h1 := (c5_capacity_discovery_amended 524288 0x08fff80c (fun _ => some 0) 4096 0
    (by decide) rfl).1 (by decide)
  have h2 := (c5_capacity_discovery_amended 524288 0x08fff80c (fun _ => some 64) 4096 64
    (by decide) rfl).2 (by decide) (by decide)
  exact ⟨h1.1.trans (by decide), h1.2, h2.trans (by decide)⟩

/-- Counterexample to claim C6 as stated: a first `Probe` on a bank
declared at `0x09000000` resolves the descriptor (the identification scan
matches the STM32H562/563/573 row) but then fails the base-address check,
leaving a bank whose binding holds a descriptor; a second `Probe` on that
bank returns `ERROR_FAIL`, not success. -/
theorem c6_counterexample :
    (Probe envC6 stBaseMis).2.1.Def = some devH56 ∧
    (Probe envC6 stBaseMis).1 = ERROR_FAIL ∧
    (Probe envC6 (Probe envC6 stBaseMis).2.1).1 = ERROR_FAIL := by
  decide

/-- Claim C6 (amended): `Probe` on an examined ARM target with an
already-resolved binding reads no identification register; when the bank
base matches the descriptor's flash base it returns success after
re-running capacity discovery (which may update the size and width
attributes, so the call is not a state no-op in general); when the base
does not match it returns `ERROR_FAIL` with the state unchanged. -/
theorem c6_probe_resolved_amended (env : ProbeEnv) (st : BankState) (d : DeviceDef)
    (hex : env.examined = true) (harm : env.isArm = true) (hdef : st.Def = some d) :
    (Probe env st).2.2.1 = [] ∧
    (st.base = d.FlashBaseAddr →
      Probe env st =
        (ERROR_OK,
         { st with
             size := (discoverSize d.MaxFlashSize d.FlashSize_Addr env.readU16At st.size).1
             chip_width := d.FlashBusWidth
             bus_width := d.FlashBusWidth
             write_start_alignment := d.FlashBusWidth
             minimal_write_gap := d.FlashBusWidth
             num_sectors := 0 },
         [], (discoverSize d.MaxFlashSize d.FlashSize_Addr env.readU16At st.size).2)) ∧
    (st.base ≠ d.FlashBaseAddr →
      (Probe env st).1 = ERROR_FAIL ∧ (Probe env st).2.1 = st) := by
  refine ⟨?_, ?_, ?_⟩
  · by_cases hbase : st.base = d.FlashBaseAddr <;>
      simp [Probe, hex, harm, hdef, hbase]
  · intro hbase
    simp [Probe, hex, harm, hdef, hbase]
  · intro hbase
    simp [Probe, hex, harm, hdef, hbase]

/-- Witness for C6 (amended): re-probing the resolved 4096-byte bank with
a device-reported size of 256 KiB succeeds, reads no identification
register, and updates size and widths (with a size-difference warning). -/
theorem c6_witness :
    Probe envC6 stC5 =
      (ERROR_OK,
       { stC5 with
           size := 262144
           chip_width := 16
           bus_width := 16
           write_start_alignment := 16
           minimal_write_gap := 16
           num_sectors := 0 },
       [], [ProbeWarn.sizeDiffers]) := by
  have h := (c6_probe_resolved_amended envC6 stC5 devH56 rfl rfl rfl).2.1 rfl
  rw [h]
  decide
